import Mathlib

/-!
Verification development for the Coupang Eats review-takedown automation
server (`src/server.py`).  The Python source is shallowly embedded: pure
fragments become Lean functions, the stateful run engine becomes explicit
state passing over a `St` record, and every externally observable side
effect (log line, websocket broadcast, sheet write, sleep, protocol
invocation) is recorded as an `Event` in an emitted trace.  External
collaborators (Google Sheets, Playwright page, websocket clients, the
wall clock and the RNG) are modelled as oracles supplied in environments
(`ItemEnv`, `RunEnv`); Python exceptions (`Exception` subclasses) are the
explicit `PyExn` type threaded through `Except`.
-/

namespace Coupang

/-- One log entry as built by `add_log` in `server.py`.  The `time` field
of the Python dict comes from the wall clock and is not modelled; the
message and severity level are kept. -/
structure LogEntry where
  message : String
  level : String
  deriving DecidableEq, Repr

/-- The buffer update performed by `add_log` (`server.py` lines 171-182):
append the entry, then keep only the most recent 200 entries
(`logs[-200:]`). -/
def add_log (logs : List LogEntry) (e : LogEntry) : List LogEntry :=
  let l := logs ++ [e]
  if l.length > 200 then l.drop (l.length - 200) else l

/-- One record ("접수데이터" row) as built by `get_sheet_data`.  The Python
dict has no `reason` key, hence `reason : Option String` with
`item.get("reason", default)` modelled by `Option.getD`. -/
structure Item where
  row : Nat
  no : String
  company_name : String
  store_id : String
  business_number : String
  order_number : String
  order_date : String
  status : String
  timestamp : String
  reason : Option String := none
  deriving DecidableEq, Repr

/-- The configuration mapping read from the "설정" sheet.  Python builds a
dict by repeated assignment, so a later pair with the same key overrides
an earlier one; lookups below therefore take the last matching pair. -/
abbrev Config := List (String × String)

/-- Last-wins lookup, matching Python dict insertion semantics for a
key/value list built in order. -/
def lookupLast (c : Config) (k : String) : Option String :=
  (c.reverse.find? (fun p => p.1 == k)).map (fun p => p.2)

/-- `config.get(key, default)` on the configuration dict. -/
def configGet (c : Config) (k d : String) : String :=
  (lookupLast c k).getD d

/-- The whitespace characters `str.strip()` removes (the sheet values
only ever contain ASCII whitespace). -/
def pySpace (c : Char) : Bool :=
  c = ' ' ∨ c = '\t' ∨ c = '\n' ∨ c = '\r' ∨ c = '\x0b' ∨ c = '\x0c'

/-- Python `str.strip()` on the character list. -/
def pyStripChars (l : List Char) : List Char :=
  ((l.dropWhile pySpace).reverse.dropWhile pySpace).reverse

/-- Python `str.strip()`. -/
def pyStrip (s : String) : String :=
  String.mk (pyStripChars s.toList)

/-- Accumulate a non-empty all-digit run into a number; any non-digit
character fails. -/
def parseNatAux : List Char → Nat → Option Nat
  | [], acc => some acc
  | c :: rest, acc =>
    if c.isDigit then parseNatAux rest (acc * 10 + (c.toNat - 48)) else none

/-- Python `int(s)` on a string: strip surrounding whitespace, then parse
an optionally signed run of decimal digits; `none` where CPython raises
`ValueError` (digit-group underscores and non-ASCII digits, which the
sheets never contain, are not modelled). -/
def pyInt (s : String) : Option Int :=
  match pyStripChars s.toList with
  | [] => none
  | '+' :: rest =>
    if rest.isEmpty then none
    else (parseNatAux rest 0).map (fun n => (n : Int))
  | '-' :: rest =>
    if rest.isEmpty then none
    else (parseNatAux rest 0).map (fun n => -(n : Int))
  | l => (parseNatAux l 0).map (fun n => (n : Int))

/-- The `ValueError` message CPython produces for `int(s)` on a
non-numeric string. -/
def intErrMsg (s : String) : String :=
  "invalid literal for int() with base 10: \x27" ++ s ++ "\x27"

/-- A Python `Exception` (the classes caught by the source's handlers).
`playwrightTimeout` is `playwright...TimeoutError`, `valueError` comes
from `int()` on malformed configuration, `err` is any other exception;
each carries its `str(e)`. -/
inductive PyExn where
  | playwrightTimeout (msg : String)
  | valueError (msg : String)
  | err (msg : String)
  deriving DecidableEq, Repr

instance {ε α : Type} [DecidableEq ε] [DecidableEq α] :
    DecidableEq (Except ε α)
  | .error e, .error f => decidable_of_iff (e = f) (by simp)
  | .error _, .ok _ => isFalse (by simp)
  | .ok _, .error _ => isFalse (by simp)
  | .ok a, .ok b => decidable_of_iff (a = b) (by simp)

/-- `str(e)` of a modelled exception. -/
def pyStr : PyExn → String
  | .playwrightTimeout m => m
  | .valueError m => m
  | .err m => m

/-- Python `s[:80]` used when formatting a caught exception. -/
def pyTrunc (s : String) : String :=
  String.mk (s.toList.take 80)

/-- Outcomes of the Playwright interactions performed during one
invocation of `process_single_item`.  Each field is the result the remote
surface yields for the corresponding call site: `click_btn`/`type_msg`
never raise (they catch internally and return a boolean), while
`page.goto` and the two `locator(...).count()` probes may raise. -/
structure ItemEnv where
  gotoExn : Option PyExn := none
  clickMain : Bool := true
  clickMainFallback : Bool := true
  clickType : Bool := true
  clickSelf : Bool := true
  clickSimple : Bool := true
  clickContinue : Bool := true
  typeStore : Bool := true
  typeBiz : Bool := true
  clickMatch : Bool := true
  mismatchCount : Except PyExn Nat := .ok 0
  typeOrder : Bool := true
  clickReason : Bool := true
  typeReason : Bool := true
  clickConsent : Bool := true
  clickFinal : Bool := true
  completedCount : Except PyExn Nat := .ok 1

/-- The mismatch failure reason produced at step 9. -/
def mismatchReason : String := "❌ 스토어ID/사업자번호 불일치"

/-- The run engine's mismatch classification (`"불일치" in msg`,
`server.py` line 508): substring containment. -/
def containsMismatch (msg : String) : Bool :=
  decide ("불일치".toList <:+: msg.toList)

/-- The `try:` body of `process_single_item` (steps 1-13, `server.py`
lines 234-320).  Returns the log messages emitted via `add_log` (all at
the default `info` level) and either the `(ok, reason)` result or the
exception escaping the body. -/
def protocolBody (cfg : Config) (item : Item) (env : ItemEnv) :
    List String × Except PyExn (Bool × String) :=
  let reason_category := configGet cfg "사유 카테고리" "기타"
  let evs1 := ["  [1/13] 챗봇 접속 중..."]
  match env.gotoExn with
  | some e => (evs1, .error e)
  | none =>
  let evs2 := evs1 ++ ["  [2/13] \x27리뷰 블라인드/게시중단 요청\x27 선택"]
  if ¬ env.clickMain ∧ ¬ env.clickMainFallback then
    (evs2, .ok (false, "❌ 메인 메뉴 버튼 탐지 실패"))
  else
  let evs3 := evs2 ++ ["  [3/13] 신청유형 선택"]
  if ¬ env.clickType then
    (evs3, .ok (false, "❌ 신청유형 \x27블라인드&게시중단 중복 신청\x27 버튼 탐지 실패"))
  else
  let evs4 := evs3 ++ ["  [4/13] \x27본인 신청\x27 선택"]
  if ¬ env.clickSelf then
    (evs4, .ok (false, "❌ \x27본인 신청\x27 버튼 탐지 실패"))
  else
  let evs5 := evs4 ++ ["  [5/13] \x27간편하게 접수하기\x27 선택"]
  if ¬ env.clickSimple then
    (evs5, .ok (false, "❌ \x27간편하게 접수하기\x27 버튼 탐지 실패"))
  else
  let evs6 := evs5 ++ ["  [6/13] \x27계속 신청하기\x27 선택"]
  if ¬ env.clickContinue then
    (evs6, .ok (false, "❌ \x27계속 신청하기\x27 버튼 탐지 실패"))
  else
  let evs7 := evs6 ++ ["  [7/13] 스토어 ID 입력: " ++ item.store_id]
  if ¬ env.typeStore then
    (evs7, .ok (false, "❌ 스토어 ID 입력 실패"))
  else
  let evs8 := evs7 ++ ["  [8/13] 사업자번호 입력: " ++ item.business_number]
  if ¬ env.typeBiz then
    (evs8, .ok (false, "❌ 사업자번호 입력 실패"))
  else
  let evs9 := evs8 ++ ["  [9/13] 인증 확인"]
  if ¬ env.clickMatch then
    match env.mismatchCount with
    | .error e => (evs9, .error e)
    | .ok c =>
      if c > 0 then (evs9, .ok (false, mismatchReason))
      else (evs9, .ok (false, "❌ 인증 확인 버튼 탐지 실패"))
  else
  let order_info :=
    item.order_number ++ (if item.order_date ≠ "" then " / " ++ item.order_date else "")
  let evs10 := evs9 ++ ["  [10/13] 주문정보 입력: " ++ order_info]
  if ¬ env.typeOrder then
    (evs10, .ok (false, "❌ 주문정보 입력 실패"))
  else
  let evs11 := evs10 ++ ["  [11/13] 사유 카테고리: \x27" ++ reason_category ++ "\x27"]
  if ¬ env.clickReason then
    (evs11, .ok (false, "❌ 사유 카테고리 \x27" ++ reason_category ++ "\x27 탐지 실패"))
  else
  let evs12 := evs11 ++ ["  [12/13] 사유 작성 중..."]
  if ¬ env.typeReason then
    (evs12, .ok (false, "❌ 사유 입력 실패"))
  else
  let evs13 := evs12 ++ ["  [13/13] 최종 접수..."]
  if ¬ env.clickFinal then
    match env.completedCount with
    | .error e => (evs13, .error e)
    | .ok c =>
      if c == 0 then (evs13, .ok (false, "❌ \x27동의하고 접수하기\x27 버튼 탐지 실패"))
      else (evs13, .ok (true, "✅ 접수 완료"))
  else
  (evs13, .ok (true, "✅ 접수 완료"))

/-- The exception handlers wrapping the protocol body
(`except PlaywrightTimeout` / `except Exception`, lines 322-325). -/
def protoCatch : Except PyExn (Bool × String) → Bool × String
  | .ok r => r
  | .error (.playwrightTimeout _) => (false, "❌ 타임아웃")
  | .error (.valueError m) => (false, "❌ 오류: " ++ pyTrunc m)
  | .error (.err m) => (false, "❌ 오류: " ++ pyTrunc m)

/-- `process_single_item` (`server.py` lines 185-325): parse the per-action
timeout from configuration (this `int()` call sits before the `try:` and
its `ValueError` escapes to the caller), then run the 13-step body with
all its exceptions converted to `(False, reason)` results.  Returns the
emitted log messages and the result. -/
def process_single_item (cfg : Config) (item : Item) (env : ItemEnv) :
    List String × Except PyExn (Bool × String) :=
  let rawTimeout := configGet cfg "요소 탐지 타임아웃(초)" "10"
  match pyInt rawTimeout with
  | none => ([], .error (.valueError (intErrMsg rawTimeout)))
  | some _timeout =>
    let (msgs, r) := protocolBody cfg item env
    (msgs, .ok (protoCatch r))

/-- The process-wide `automation_state` dict. -/
structure St where
  is_running : Bool
  current_item : Nat
  total_items : Nat
  success : Nat
  fail : Nat
  skip : Nat
  logs : List LogEntry
  should_stop : Bool
  deriving DecidableEq, Repr

/-- One externally observable side effect of the run engine, in emission
order.  `log` is one `add_log` call (buffer update + `log` broadcast);
`bstate` is a `broadcast("state", ...)` carrying the counters at that
moment; `progress` is the per-record `broadcast("progress", ...)` (the
payload's full item is represented by its row); `sheetWrite` is a
successful `update_sheet_result` call; `retrySleep` is the
`asyncio.sleep(delay)` before a retry; `pacingSleep` is the between-record
`asyncio.sleep(delay + random.uniform(0, 2))`; `attemptStart` marks one
invocation of `process_single_item`; `complete` is the final
`broadcast("complete", ...)`. -/
inductive Event where
  | log (message level : String)
  | bstate (success fail skip : Nat)
  | progress (current total row : Nat)
  | sheetWrite (row : Nat) (status : String)
  | retrySleep (seconds : Int)
  | pacingSleep (seconds : Rat)
  | attemptStart (attempt : Nat)
  | complete (success fail skip : Nat)
  deriving DecidableEq, Repr

/-- Recognizer for `complete` events. -/
def Event.isCompleteEv : Event → Bool
  | .complete _ _ _ => true
  | _ => false

/-- Recognizer for `progress` events. -/
def Event.isProgressEv : Event → Bool
  | .progress _ _ _ => true
  | _ => false

/-- Recognizer for pacing-sleep events. -/
def Event.isPacingEv : Event → Bool
  | .pacingSleep _ => true
  | _ => false

/-- Recognizer for protocol-invocation markers. -/
def Event.isAttemptStartEv : Event → Bool
  | .attemptStart _ => true
  | _ => false

/-- Perform one `add_log` against the state and record the event. -/
def emitLog (st : St) (msg lvl : String) : St × Event :=
  ({ st with logs := add_log st.logs ⟨msg, lvl⟩ }, .log msg lvl)

/-- Replay the `add_log` effect of the log events in a trace onto the
state (used where a callee returns its trace and the state's log buffer
must absorb it; only `log` events touch the state). -/
def applyLogEvent (st : St) : Event → St
  | .log m l => { st with logs := add_log st.logs ⟨m, l⟩ }
  | _ => st

/-- Fold `applyLogEvent` over a trace. -/
def applyEvents (st : St) (evs : List Event) : St :=
  evs.foldl applyLogEvent st

/-- Wrap protocol log messages as `info`-level log events (`add_log`'s
default level, used for every log inside `process_single_item`). -/
def protoEvents (msgs : List String) : List Event :=
  msgs.map (fun m => Event.log m "info")

/-- The retry notice and inter-attempt sleep emitted before every
attempt after the first (`if attempt > 1:` in the retry loop). -/
def retryPre (delay : Int) (mr attempt : Nat) : List Event :=
  if 1 < attempt then
    [Event.log ("  🔁 재시도 " ++ toString attempt ++ "/" ++ toString mr ++ "...") "info",
     Event.retrySleep delay]
  else []

/-- The per-record retry loop (`for attempt in range(1, max_retry + 1)`,
`server.py` lines 495-509).  `attempt` is the 1-based attempt number,
`prev` the `result_msg` accumulator, and the last argument the remaining
iterations of the `range`.  Returns the trace plus either the escaping
exception or `(success, result_msg, last attempt number started)` — the
third component is `attempt - 1` when the budget was already spent. -/
def attemptLoop (cfg : Config) (item : Item) (envA : Nat → ItemEnv)
    (delay : Int) (mr : Nat) :
    Nat → String → Nat → List Event × Except PyExn (Bool × String × Nat)
  | attempt, prev, 0 => ([], .ok (false, prev, attempt - 1))
  | attempt, _prev, fuel + 1 =>
    let p := process_single_item cfg item (envA attempt)
    let evs := retryPre delay mr attempt ++ [Event.attemptStart attempt] ++ protoEvents p.1
    match p.2 with
    | .error e => (evs, .error e)
    | .ok (true, msg) => (evs, .ok (true, msg, attempt))
    | .ok (false, msg) =>
      let evs := evs ++ [Event.log ("  " ++ msg) "error"]
      if containsMismatch msg then (evs, .ok (false, msg, attempt))
      else
        let rest := attemptLoop cfg item envA delay mr (attempt + 1) msg fuel
        (evs ++ rest.1, rest.2)

/-- The eligibility check of the run loop (`server.py` lines 477-480):
required fields whose value is falsy (empty string). -/
def missingFields (item : Item) : List String :=
  (if item.store_id = "" then ["스토어ID"] else []) ++
  (if item.business_number = "" then ["사업자번호"] else []) ++
  (if item.order_number = "" then ["주문번호"] else [])

/-- The skip log message (`f"⏭ 스킵 (누락: {', '.join(missing)})"`). -/
def skipMsg (missing : List String) : String :=
  "⏭ 스킵 (누락: " ++ String.intercalate ", " missing ++ ")"

/-- The warning logged when the protected result write-back raises. -/
def writeFailMsg (e : PyExn) : String :=
  "  ⚠️ 시트 결과 기록 실패: " ++ pyStr e

/-- The fatal-fault log message of the run's `except` handler. -/
def fatalMsg (e : PyExn) : String :=
  "💥 치명적 오류: " ++ pyStr e

/-- The final summary log message. -/
def summaryMsg (success fail skip : Nat) : String :=
  "📊 최종 결과: ✅ " ++ toString success ++ "건 성공, ❌ " ++ toString fail ++
    "건 실패, ⏭ " ++ toString skip ++ "건 스킵"

/-- The `"━" * 40` separator logged before the summary. -/
def sepLine : String := String.mk (List.replicate 40 '━')

/-- The between-record wait log.  Python formats the duration with
`f"{wait:.1f}"`; the numeric rendering of the modelled rational stands in
for that fixed-point formatting. -/
def pacingMsg (wait : Rat) : String :=
  "  ⏳ " ++ toString wait ++ "초 대기..."

/-- Oracles for one run: the sheet load result, the browser launch
(`None` = launched), the Playwright outcomes per record index and attempt
number, the per-record result write outcome, the externally set stop flag
as observed at its two read sites, and the pacing jitter drawn from
`random.uniform(0, 2)`. -/
structure RunEnv where
  load : Except PyExn (List Item × Config)
  browserExn : Option PyExn := none
  attemptEnv : Nat → Nat → ItemEnv
  writeRes : Nat → Except PyExn Unit
  stopBefore : Nat → Bool
  stopAfter : Nat → Bool
  jitter : Nat → Rat

/-- The body of one iteration of the record loop after the stop check
(`server.py` lines 466-533): progress broadcast, header logs, eligibility
check, then either the skip path (whose `update_sheet_result` call is NOT
wrapped in `try`, so its exception escapes) or the attempt loop followed
by classification, the protected write-back, the state broadcast and the
pacing sleep.  `n` is `len(items)` after range filtering; the third
result component is the exception escaping the iteration, if any. -/
def recordStep (env : RunEnv) (cfg : Config) (delay : Int) (mr : Nat)
    (n : Nat) (item : Item) (i : Nat) (st : St) :
    List Event × St × Option PyExn :=
  let st := { st with current_item := i + 1 }
  let e0 := Event.progress (i + 1) n item.row
  let (st, e1) := emitLog st
    ("\n━━ [" ++ toString (i + 1) ++ "/" ++ toString n ++ "] Row " ++
      toString item.row ++ " ━━") "info"
  let (st, e2) := emitLog st
    ("  업체명: " ++ item.company_name ++ ", 스토어ID: " ++ item.store_id ++
      ", 주문번호: " ++ item.order_number) "info"
  let missing := missingFields item
  if missing.isEmpty then
    let al := attemptLoop cfg item (env.attemptEnv i) delay mr 1 "" mr
    let st := applyEvents st al.1
    match al.2 with
    | .error e => ([e0, e1, e2] ++ al.1, st, some e)
    | .ok (succ, result_msg, _a) =>
      let (st, e4) :=
        if succ then
          emitLog { st with success := st.success + 1 } "  ✅ 접수 완료!" "success"
        else
          emitLog { st with fail := st.fail + 1 }
            ("  ❌ 최종 실패: " ++ result_msg) "error"
      let (st, wevs) :=
        match env.writeRes i with
        | .ok _ => (st, [Event.sheetWrite item.row result_msg])
        | .error e =>
          let (st, ew) := emitLog st (writeFailMsg e) "warn"
          (st, [ew])
      let paceEvs :=
        if i + 1 < n ∧ ¬ env.stopAfter i then
          let wait : Rat := (delay : Rat) + env.jitter i
          [Event.log (pacingMsg wait) "info", Event.pacingSleep wait]
        else []
      let st := applyEvents st paceEvs
      ([e0, e1, e2] ++ al.1 ++ [e4] ++ wevs ++
        [Event.bstate st.success st.fail st.skip] ++ paceEvs, st, none)
  else
    let msg := skipMsg missing
    let (st, e3) := emitLog st msg "warn"
    let st := { st with skip := st.skip + 1 }
    match env.writeRes i with
    | .error e => ([e0, e1, e2, e3], st, some e)
    | .ok _ =>
      ([e0, e1, e2, e3, Event.sheetWrite item.row msg,
        Event.bstate st.success st.fail st.skip], st, none)

/-- The record loop (`for i, item in enumerate(items)`, lines 461-533):
check the stop flag, run the iteration body, abort on an escaping
exception, otherwise continue with the next record. -/
def runLoop (env : RunEnv) (cfg : Config) (delay : Int) (mr : Nat)
    (n : Nat) : List Item → Nat → St → List Event × St × Option PyExn
  | [], _, st => ([], st, none)
  | item :: rest, i, st =>
    if env.stopBefore i then
      let (st, e) := emitLog st "⛔ 사용자에 의해 중지되었습니다." "warn"
      ([e], st, none)
    else
      let rs := recordStep env cfg delay mr n item i st
      match rs.2.2 with
      | some e => (rs.1, rs.2.1, some e)
      | none =>
        let rest' := runLoop env cfg delay mr n rest (i + 1) rs.2.1
        (rs.1 ++ rest'.1, rest'.2.1, rest'.2.2)

/-- Python list slicing `l[a:b]` (step 1): clamp a possibly negative
index into `[0, len]`. -/
def pySliceIdx (len : Nat) (a : Int) : Nat :=
  if a < 0 then ((len : Int) + a).toNat else min a.toNat len

/-- `items[start_idx:end_idx]`. -/
def pySlice {α : Type} (l : List α) (a b : Int) : List α :=
  (l.take (pySliceIdx l.length b)).drop (pySliceIdx l.length a)

/-- The headless-mode decision (`server.py` lines 437-442): the
"브라우저 표시" setting upper-cased must be one of the truthy spellings for
a visible browser, and a display-less POSIX host forces headless. -/
def headlessOf (cfg : Config) (forceHeadless : Bool) : Bool :=
  let v := (configGet cfg "브라우저 표시" "FALSE").toUpper
  (¬ (v = "TRUE" ∨ v = "1" ∨ v = "예" ∨ v = "Y")) ∨ forceHeadless

/-- The `try:` body of `run_automation` (lines 422-535): load the sheet,
bail out on an empty record list, apply the row-range filter, parse the
numeric settings (each `int()` may raise), launch the browser and run the
record loop.  An escaping exception is rendered here into the fatal log
line the `except` handler emits (lines 537-538). -/
def runTry (env : RunEnv) (start_row end_row : Int) (st : St) :
    List Event × St :=
  let fatalTail := fun (st : St) (evs : List Event) (e : PyExn) =>
    let (st, ef) := emitLog st (fatalMsg e) "error"
    (evs ++ [ef], st)
  match env.load with
  | .error e => fatalTail st [] e
  | .ok (items0, cfg) =>
    if items0.isEmpty then
      let (st, e) := emitLog st "⚠️ 처리할 데이터가 없습니다." "warn"
      ([e], st)
    else
      let items := pySlice items0 (start_row - 1)
        (if end_row > 0 then end_row else (items0.length : Int))
      let st := { st with total_items := items.length }
      let rawDelay := configGet cfg "건당 대기시간(초)" "3"
      match pyInt rawDelay with
      | none => fatalTail st [] (.valueError (intErrMsg rawDelay))
      | some delay =>
      let rawRetry := configGet cfg "최대 재시도 횟수" "3"
      match pyInt rawRetry with
      | none => fatalTail st [] (.valueError (intErrMsg rawRetry))
      | some max_retry =>
      let _headless := headlessOf cfg true
      let (st, e1) := emitLog st
        ("📊 총 " ++ toString items.length ++ "건 처리 예정") "info"
      let evs1 := [e1, Event.bstate st.success st.fail st.skip]
      match env.browserExn with
      | some e => fatalTail st evs1 e
      | none =>
        let lp := runLoop env cfg delay max_retry.toNat items.length items 0 st
        match lp.2.2 with
        | some e => fatalTail lp.2.1 (evs1 ++ lp.1) e
        | none => (evs1 ++ lp.1, lp.2.1)

/-- The state reset at run start (`automation_state.update({...})`, lines
410-417): `current_item` and `total_items` are deliberately left as they
were. -/
def resetState (st : St) : St :=
  { st with is_running := true, should_stop := false,
            success := 0, fail := 0, skip := 0, logs := [] }

/-- `run_automation` (`server.py` lines 406-550): reset, start log and
state broadcast, the guarded body, then the `finally:` block — clear the
running flag, log the separator and the summary, broadcast the final
state and the `complete` event with the final tallies. -/
def run_automation (env : RunEnv) (start_row end_row : Int) (st0 : St) :
    List Event × St :=
  let st1 := resetState st0
  let (st2, e1) := emitLog st1 "🚀 자동화를 시작합니다..." "info"
  let tryRes := runTry env start_row end_row st2
  let st3 := tryRes.2
  let st4 := { st3 with is_running := false }
  let (st5, eA) := emitLog st4 sepLine "info"
  let (st6, eB) := emitLog st5 (summaryMsg st5.success st5.fail st5.skip) "info"
  ([e1, Event.bstate st2.success st2.fail st2.skip] ++ tryRes.1 ++
    [eA, eB, Event.bstate st6.success st6.fail st6.skip,
     Event.complete st6.success st6.fail st6.skip], st6)

/-- The body of a `POST /api/automation/start` request. -/
structure RunRequest where
  start_row : Int := 1
  end_row : Int := 0

/-- `start_automation` (`server.py` lines 366-374): reject with HTTP 409
while a run is active, otherwise schedule `run_automation` as a background
task (the returned `Option RunRequest` is the created task's argument)
and reply immediately.  The handler itself never touches the state. -/
def start_automation (req : RunRequest) (st : St) :
    St × Except Nat String × Option RunRequest :=
  if st.is_running then (st, .error 409, none)
  else (st, .ok "자동화가 시작되었습니다", some req)

/-- One record built from a raw sheet row (`server.py` lines 117-127).
`gspread.get_all_values` yields a rectangular matrix of strings, modelled
by reading absent cells as `""`. -/
def mkSheetItem (row : List String) (i : Nat) : Item :=
  { row := i
    no := if row.getD 0 "" ≠ "" then row.getD 0 "" else toString (i - 3)
    company_name := pyStrip (row.getD 1 "")
    store_id := pyStrip (row.getD 2 "")
    business_number := pyStrip (row.getD 3 "")
    order_number := pyStrip (row.getD 4 "")
    order_date := pyStrip (row.getD 5 "")
    status := pyStrip (row.getD 6 "")
    timestamp := pyStrip (row.getD 7 "") }

/-- The record-building loop of `get_sheet_data` (lines 113-127):
enumerate data rows starting at sheet row 4 and stop at the first row
whose raw C cell (store ID) is empty. -/
def sheetItems : List (List String) → Nat → List Item
  | [], _ => []
  | row :: rest, i =>
    if row.getD 2 "" = "" then []
    else mkSheetItem row i :: sheetItems rest (i + 1)

/-- The configuration-building loop of `get_sheet_data` (lines 130-138):
rows of the "설정" sheet from row 4 on whose first two cells are both
non-empty, in order (`lookupLast` gives the dict's last-wins semantics).
A missing "설정" worksheet is modelled by an empty matrix. -/
def sheetConfig (rows : List (List String)) : Config :=
  (rows.drop 3).foldl
    (fun c row =>
      if row.getD 0 "" ≠ "" ∧ row.getD 1 "" ≠ "" then
        c ++ [(pyStrip (row.getD 0 ""), pyStrip (row.getD 1 ""))]
      else c) []

/-- `get_sheet_data` (`server.py` lines 97-140) on the raw cell matrices
of the two worksheets: fewer than 4 rows yields no data, otherwise the
records start at row 4 (header is row 3). -/
def get_sheet_data (records : List (List String))
    (configRows : List (List String)) : List Item × Config :=
  if records.length < 4 then ([], [])
  else (sheetItems (records.drop 3) 4, sheetConfig configRows)

/-! ## Auxiliary definitions for the proofs and concrete fixtures -/

/-- Events emitted by the retry loop are only log lines, retry sleeps and
protocol-invocation markers. -/
def Event.isStepEv : Event → Bool
  | .log _ _ => true
  | .retrySleep _ => true
  | .attemptStart _ => true
  | _ => false

/-- A record with all required fields present, used as a concrete
fixture. -/
def itemW : Item :=
  { row := 4, no := "1", company_name := "업체", store_id := "S1",
    business_number := "B1", order_number := "O1", order_date := "",
    status := "", timestamp := "" }

/-- A remote surface where step 9 fails and the mismatch marker is
visible: every attempt yields the mismatch reason. -/
def mmEnv : ItemEnv := { clickMatch := false, mismatchCount := .ok 1 }

/-- A record whose order number is empty, for the C4 witness. -/
def itemNoOrder : Item := { itemW with order_number := "" }

/-- An all-defaults run environment over a fixed record list, shared by
the concrete instantiations below. -/
def envOf (items : List Item) (cfg : Config) : RunEnv :=
  { load := .ok (items, cfg)
    attemptEnv := fun _ _ => {}
    writeRes := fun _ => .ok ()
    stopBefore := fun _ => false
    stopAfter := fun _ => false
    jitter := fun _ => 0 }

/-- The idle state at process start. -/
def st0 : St :=
  { is_running := false, current_item := 0, total_items := 0,
    success := 0, fail := 0, skip := 0, logs := [], should_stop := false }

/-- A record whose business registration number is empty. -/
def itemNoBiz : Item := { itemW with business_number := "" }

/-- A second complete record on sheet row 5. -/
def itemW2 : Item := { itemW with row := 5 }

/-- Exactly one of the three outcome counters grew by one, the others
are unchanged (`succeeded` / `exhausted` / `skipped`). -/
def bumpOneOf (st st' : St) : Prop :=
  (st'.success = st.success + 1 ∧ st'.fail = st.fail ∧ st'.skip = st.skip) ∨
  (st'.fail = st.fail + 1 ∧ st'.success = st.success ∧ st'.skip = st.skip) ∨
  (st'.skip = st.skip + 1 ∧ st'.success = st.success ∧ st'.fail = st.fail)

/-- Environment where every result write-back raises: the first record is
skip-classified (no business number), so its unprotected write aborts the
loop. -/
def envC2x : RunEnv :=
  { envOf [itemNoBiz, itemW2] [] with writeRes := fun _ => .error (.err "boom") }

/-- Environment with a skipped first record and a successful second one,
all writes succeeding. -/
def envC9x : RunEnv := envOf [itemNoBiz, itemW2] []

/-- Environment like `envOf` but whose per-record result write raises
while everything else succeeds. -/
def envWfail : RunEnv :=
  { envOf [itemW] [] with writeRes := fun _ => .error (.err "boom") }

/-- Environment whose configuration holds a non-numeric per-record delay
value. -/
def envC7x : RunEnv := envOf [itemW] [("건당 대기시간(초)", "abc")]

/-- Environment whose configuration holds a non-numeric retry budget. -/
def envC7r : RunEnv := envOf [itemW] [("최대 재시도 횟수", "xyz")]

/-- Environment whose configuration holds a non-numeric per-action
timeout. -/
def envC7t : RunEnv := envOf [itemW] [("요소 탐지 타임아웃(초)", "zzz")]

/-- A raw "접수데이터" matrix with two data rows and a terminating row
whose store-ID cell is empty. -/
def matC10 : List (List String) :=
  [[], [], [], ["1", "A", "S1", "B1", "O1", "D1"],
   ["2", "B", "S2", "B2", "O2", "D2"], ["", "", "", ""]]

/-- A raw matrix whose single data row has a whitespace-only store-ID
cell: truthy for the reader's stop test, but empty after `strip()`. -/
def matC10w : List (List String) :=
  [[], [], [], ["1", "회사", " ", "123-45", "ORD", "2024-01-01"]]

/-! ## Helper lemmas -/

@[simp] lemma emitLog_success (st : St) (m l : String) :
    ((emitLog st m l).1).success = st.success := rfl

@[simp] lemma emitLog_fail (st : St) (m l : String) :
    ((emitLog st m l).1).fail = st.fail := rfl

@[simp] lemma emitLog_skip (st : St) (m l : String) :
    ((emitLog st m l).1).skip = st.skip := rfl

@[simp] lemma emitLog_is_running (st : St) (m l : String) :
    ((emitLog st m l).1).is_running = st.is_running := rfl

@[simp] lemma emitLog_snd (st : St) (m l : String) :
    (emitLog st m l).2 = Event.log m l := rfl

@[simp] lemma applyLogEvent_success (st : St) (ev : Event) :
    (applyLogEvent st ev).success = st.success := by
  cases ev <;> rfl

@[simp] lemma applyLogEvent_fail (st : St) (ev : Event) :
    (applyLogEvent st ev).fail = st.fail := by
  cases ev <;> rfl

@[simp] lemma applyLogEvent_skip (st : St) (ev : Event) :
    (applyLogEvent st ev).skip = st.skip := by
  cases ev <;> rfl

@[simp] lemma applyLogEvent_is_running (st : St) (ev : Event) :
    (applyLogEvent st ev).is_running = st.is_running := by
  cases ev <;> rfl

@[simp] lemma applyEvents_success (evs : List Event) : ∀ st : St,
    (applyEvents st evs).success = st.success := by
  induction evs with
  | nil => intro st; rfl
  | cons e tl ih => intro st; simp [applyEvents, List.foldl_cons] at ih ⊢; simp [ih]

@[simp] lemma applyEvents_fail (evs : List Event) : ∀ st : St,
    (applyEvents st evs).fail = st.fail := by
  induction evs with
  | nil => intro st; rfl
  | cons e tl ih => intro st; simp [applyEvents, List.foldl_cons] at ih ⊢; simp [ih]

@[simp] lemma applyEvents_skip (evs : List Event) : ∀ st : St,
    (applyEvents st evs).skip = st.skip := by
  induction evs with
  | nil => intro st; rfl
  | cons e tl ih => intro st; simp [applyEvents, List.foldl_cons] at ih ⊢; simp [ih]

@[simp] lemma applyEvents_is_running (evs : List Event) : ∀ st : St,
    (applyEvents st evs).is_running = st.is_running := by
  induction evs with
  | nil => intro st; rfl
  | cons e tl ih => intro st; simp [applyEvents, List.foldl_cons] at ih ⊢; simp [ih]

/-- `add_log` keeps the buffer a suffix of the append and within the
bound. -/
lemma add_log_eq (logs : List LogEntry) (e : LogEntry)
    (h : logs.length ≤ 200) :
    add_log logs e = (logs ++ [e]).drop (logs.length + 1 - 200) ∧
    (add_log logs e).length ≤ 200 := by
  unfold add_log
  by_cases h2 : (logs ++ [e]).length > 200
  · rw [if_pos h2]
    simp only [List.length_append, List.length_singleton] at h2 ⊢
    constructor
    · trivial
    · simp only [List.length_drop, List.length_append, List.length_singleton]
      omega
  · rw [if_neg h2]
    simp only [List.length_append, List.length_singleton, not_lt] at h2
    constructor
    · rw [show logs.length + 1 - 200 = 0 by omega, List.drop_zero]
    · simpa using h2

set_option maxRecDepth 4000 in
/-- Folding `add_log` from a buffer within the bound yields exactly the
suffix of the whole append that fits the bound. -/
lemma foldl_add_log (entries : List LogEntry) : ∀ logs : List LogEntry,
    logs.length ≤ 200 →
    List.foldl add_log logs entries
      = (logs ++ entries).drop (logs.length + entries.length - 200) := by
  induction entries with
  | nil =>
    intro logs h
    simp only [List.foldl_nil, List.append_nil, List.length_nil, Nat.add_zero]
    rw [show logs.length - 200 = 0 by omega, List.drop_zero]
  | cons e tl ih =>
    intro logs h
    rw [List.foldl_cons]
    obtain ⟨heq, hlen⟩ := add_log_eq logs e h
    rw [heq] at hlen ⊢
    rw [ih _ hlen]
    have hk : logs.length + 1 - 200 ≤ (logs ++ [e]).length := by
      simp only [List.length_append, List.length_singleton]; omega
    rw [← List.drop_append_of_le_length hk, List.drop_drop,
      List.append_assoc, List.singleton_append]
    congr 1
    simp only [List.length_drop, List.length_append, List.length_singleton,
      List.length_cons, List.length_nil]
    omega

lemma retryPre_events (delay : Int) (mr attempt : Nat) :
    ∀ ev ∈ retryPre delay mr attempt, ev.isStepEv = true := by
  intro ev h
  unfold retryPre at h
  split at h
  · simp only [List.mem_cons, List.not_mem_nil, or_false] at h
    rcases h with h | h <;> simp [h, Event.isStepEv]
  · simp at h

lemma protoEvents_events (msgs : List String) :
    ∀ ev ∈ protoEvents msgs, ev.isStepEv = true := by
  intro ev h
  simp only [protoEvents, List.mem_map] at h
  obtain ⟨m, _, hm⟩ := h
  simp [← hm, Event.isStepEv]

lemma attemptLoop_events (cfg : Config) (item : Item) (envA : Nat → ItemEnv)
    (delay : Int) (mr : Nat) :
    ∀ (fuel attempt : Nat) (prev : String) (ev : Event),
      ev ∈ (attemptLoop cfg item envA delay mr attempt prev fuel).1 →
      ev.isStepEv = true := by
  intro fuel
  induction fuel with
  | zero =>
    intro attempt prev ev h
    simp [attemptLoop] at h
  | succ f ih =>
    intro attempt prev ev h
    simp only [attemptLoop] at h
    split at h
    · simp only [List.mem_append, List.mem_singleton] at h
      rcases h with ((h | h) | h)
      · exact retryPre_events _ _ _ _ h
      · simp [h, Event.isStepEv]
      · exact protoEvents_events _ _ h
    · simp only [List.mem_append, List.mem_singleton] at h
      rcases h with ((h | h) | h)
      · exact retryPre_events _ _ _ _ h
      · simp [h, Event.isStepEv]
      · exact protoEvents_events _ _ h
    · split at h
      · simp only [List.mem_append, List.mem_singleton] at h
        rcases h with (((h | h) | h) | h)
        · exact retryPre_events _ _ _ _ h
        · simp [h, Event.isStepEv]
        · exact protoEvents_events _ _ h
        · simp [h, Event.isStepEv]
      · simp only [List.mem_append, List.mem_singleton] at h
        rcases h with ((((h | h) | h) | h) | h)
        · exact retryPre_events _ _ _ _ h
        · simp [h, Event.isStepEv]
        · exact protoEvents_events _ _ h
        · simp [h, Event.isStepEv]
        · exact ih _ _ _ h

/-- Invariant of the retry loop: the final attempt number stays within
the remaining budget, every attempt strictly before the final one was a
non-mismatch failure (so a success or a mismatch is never followed by
another attempt), and a final non-mismatch failure means the whole budget
was used. -/
lemma attemptLoop_invariant (cfg : Config) (item : Item)
    (envA : Nat → ItemEnv) (delay : Int) (mr : Nat) :
    ∀ (fuel attempt : Nat) (prev : String) (s : Bool) (m : String) (a : Nat),
      1 ≤ attempt →
      (attemptLoop cfg item envA delay mr attempt prev fuel).2 = .ok (s, m, a) →
      a + 1 ≤ attempt + fuel ∧
      (∀ j, attempt ≤ j → j < a →
        ∃ mj, (process_single_item cfg item (envA j)).2 = .ok (false, mj) ∧
          containsMismatch mj = false) ∧
      (s = false → containsMismatch m = false → a + 1 = attempt + fuel) := by
  intro fuel
  induction fuel with
  | zero =>
    intro attempt prev s m a h1 hres
    simp only [attemptLoop, Except.ok.injEq, Prod.mk.injEq] at hres
    obtain ⟨hs, hm, ha⟩ := hres
    refine ⟨by omega, ?_, ?_⟩
    · intro j hj1 hj2; omega
    · intro _ _; omega
  | succ f ih =>
    intro attempt prev s m a h1 hres
    simp only [attemptLoop] at hres
    split at hres
    · simp at hres
    · rename_i msg hp
      simp only [Except.ok.injEq, Prod.mk.injEq] at hres
      obtain ⟨hs, hm, ha⟩ := hres
      subst hs; subst hm; subst ha
      refine ⟨by omega, ?_, ?_⟩
      · intro j hj1 hj2; omega
      · intro hfalse _; cases hfalse
    · rename_i msg hp
      by_cases hcm : containsMismatch msg = true
      · rw [if_pos hcm] at hres
        simp only [Except.ok.injEq, Prod.mk.injEq] at hres
        obtain ⟨hs, hm, ha⟩ := hres
        subst hs; subst hm; subst ha
        refine ⟨by omega, ?_, ?_⟩
        · intro j hj1 hj2; omega
        · intro _ hmm; rw [hmm] at hcm; cases hcm
      · rw [if_neg hcm] at hres
        have hrest := ih (attempt + 1) msg s m a (by omega) hres
        obtain ⟨hb, hall, hfin⟩ := hrest
        refine ⟨by omega, ?_, ?_⟩
        · intro j hj1 hj2
          by_cases hj : j = attempt
          · subst hj
            exact ⟨msg, hp, by simpa using hcm⟩
          · exact hall j (by omega) hj2
        · intro hs hmm; have := hfin hs hmm; omega

lemma stepEv_classify (ev : Event) (h : ev.isStepEv = true) :
    ev.isCompleteEv = false ∧ ev.isProgressEv = false ∧
    ev.isPacingEv = false := by
  cases ev <;> simp_all [Event.isStepEv, Event.isCompleteEv,
    Event.isProgressEv, Event.isPacingEv]

lemma attemptLoop_countP (cfg : Config) (item : Item) (envA : Nat → ItemEnv)
    (delay : Int) (mr fuel attempt : Nat) (prev : String) (p : Event → Bool)
    (hp : ∀ ev : Event, ev.isStepEv = true → p ev = false) :
    ((attemptLoop cfg item envA delay mr attempt prev fuel).1).countP p = 0 :=
  List.countP_eq_zero.2 fun ev h => by
    simp [hp ev (attemptLoop_events cfg item envA delay mr fuel attempt prev ev h)]

/-- Each record-loop iteration broadcasts exactly one `progress`
event. -/
lemma recordStep_countP_progress (env : RunEnv) (cfg : Config)
    (delay : Int) (mr n : Nat) (item : Item) (i : Nat) (st : St) :
    ((recordStep env cfg delay mr n item i st).1).countP
      Event.isProgressEv = 1 := by
  have hal := attemptLoop_countP cfg item (env.attemptEnv i) delay mr mr 1 ""
    Event.isProgressEv (fun ev h => (stepEv_classify ev h).2.1)
  unfold recordStep
  simp only [emitLog]
  repeat' split
  all_goals
    simp [List.countP_append, List.countP_cons, Event.isProgressEv, hal]

/-- A record-loop iteration that does not abort bumps exactly one of the
three outcome counters. -/
lemma recordStep_bump (env : RunEnv) (cfg : Config)
    (delay : Int) (mr n : Nat) (item : Item) (i : Nat) (st : St) :
    (recordStep env cfg delay mr n item i st).2.2 = none →
    bumpOneOf st (recordStep env cfg delay mr n item i st).2.1 := by
  unfold recordStep
  simp only [emitLog]
  repeat' split
  all_goals intro h
  all_goals simp_all [bumpOneOf]

/-- Over the whole loop (absent a fatal abort) the counters grow by
exactly the number of records started, i.e. of `progress` events. -/
lemma runLoop_tally (env : RunEnv) (cfg : Config) (delay : Int)
    (mr n : Nat) : ∀ (items : List Item) (j : Nat) (st : St),
    (runLoop env cfg delay mr n items j st).2.2 = none →
    (runLoop env cfg delay mr n items j st).2.1.success
      + (runLoop env cfg delay mr n items j st).2.1.fail
      + (runLoop env cfg delay mr n items j st).2.1.skip
    = st.success + st.fail + st.skip
      + ((runLoop env cfg delay mr n items j st).1).countP
          Event.isProgressEv := by
  intro items
  induction items with
  | nil => intro j st _; simp [runLoop]
  | cons item rest ih =>
    intro j st h
    simp only [runLoop] at h ⊢
    by_cases hstop : env.stopBefore j = true
    · rw [if_pos hstop] at h ⊢
      simp [emitLog, Event.isProgressEv]
    · rw [if_neg hstop] at h ⊢
      rcases hr : (recordStep env cfg delay mr n item j st).2.2 with _ | e
      · simp only [hr] at h ⊢
        have hbump := recordStep_bump env cfg delay mr n item j st hr
        have hcnt := recordStep_countP_progress env cfg delay mr n item j st
        have hrec := ih (j + 1) (recordStep env cfg delay mr n item j st).2.1 h
        simp only [List.countP_append]
        rw [hcnt]
        rcases hbump with ⟨h1, h2, h3⟩ | ⟨h1, h2, h3⟩ | ⟨h1, h2, h3⟩ <;>
          omega
      · simp only [hr] at h; simp at h

/-- No `complete` event is emitted inside a record-loop iteration. -/
lemma recordStep_countP_complete (env : RunEnv) (cfg : Config)
    (delay : Int) (mr n : Nat) (item : Item) (i : Nat) (st : St) :
    ((recordStep env cfg delay mr n item i st).1).countP
      Event.isCompleteEv = 0 := by
  have hal := attemptLoop_countP cfg item (env.attemptEnv i) delay mr mr 1 ""
    Event.isCompleteEv (fun ev h => (stepEv_classify ev h).1)
  unfold recordStep
  simp only [emitLog]
  repeat' split
  all_goals
    simp [List.countP_append, List.countP_cons, Event.isCompleteEv, hal]

/-- No `complete` event is emitted inside the record loop. -/
lemma runLoop_countP_complete (env : RunEnv) (cfg : Config) (delay : Int)
    (mr n : Nat) : ∀ (items : List Item) (j : Nat) (st : St),
    ((runLoop env cfg delay mr n items j st).1).countP
      Event.isCompleteEv = 0 := by
  intro items
  induction items with
  | nil => intro j st; simp [runLoop]
  | cons item rest ih =>
    intro j st
    simp only [runLoop]
    by_cases hstop : env.stopBefore j = true
    · rw [if_pos hstop]
      simp [emitLog, Event.isCompleteEv]
    · rw [if_neg hstop]
      rcases hr : (recordStep env cfg delay mr n item j st).2.2 with _ | e <;>
        simp only [hr] <;>
        simp [List.countP_append, recordStep_countP_complete, ih]

/-- No `complete` event is emitted inside the guarded run body (the
`complete` broadcast lives only in the `finally:` block). -/
lemma runTry_countP_complete (env : RunEnv) (sr er : Int) (st : St) :
    ((runTry env sr er st).1).countP Event.isCompleteEv = 0 := by
  unfold runTry
  simp only [emitLog]
  repeat' split
  all_goals
    simp [emitLog, List.countP_append, List.countP_cons, Event.isCompleteEv,
      runLoop_countP_complete]

/-- Filter form of `runTry_countP_complete`. -/
lemma runTry_filter_complete (env : RunEnv) (sr er : Int) (st : St) :
    ((runTry env sr er st).1).filter Event.isCompleteEv = [] :=
  List.filter_eq_nil_iff.2
    (List.countP_eq_zero.1 (runTry_countP_complete env sr er st))

/-! ## C1: guaranteed completion semantics -/

/-- C1.  However the guarded body ends — normal completion, stop, empty
record list, load failure or an exception escaping the record loop — the
run always leaves the running flag false, logs the final summary line
with the final tallies, and broadcasts exactly one `complete` event whose
success/fail/skip payload equals the final run-state counters. -/
theorem run_completion_c1 (env : RunEnv) (sr er : Int) (stp : St) :
    (run_automation env sr er stp).2.is_running = false ∧
    ((run_automation env sr er stp).1).filter Event.isCompleteEv
      = [Event.complete (run_automation env sr er stp).2.success
          (run_automation env sr er stp).2.fail
          (run_automation env sr er stp).2.skip] ∧
    Event.log (summaryMsg (run_automation env sr er stp).2.success
        (run_automation env sr er stp).2.fail
        (run_automation env sr er stp).2.skip) "info"
      ∈ (run_automation env sr er stp).1 := by
  refine ⟨?_, ?_, ?_⟩
  · simp [run_automation, emitLog]
  · simp [run_automation, emitLog, List.filter_append,
      runTry_filter_complete, Event.isCompleteEv]
  · simp [run_automation, emitLog, List.mem_append]

/-! ## C3: mismatch short-circuits retries -/

/-- C3.  For every record and retry budget: the retry loop performs at
most `mr` attempts; every attempt strictly before the final one failed
with a reason not classified as a mismatch — hence after an attempt whose
failure reason is mismatch-classified (the store-ID/business-number
mismatch message) no further attempt is ever started; and when the final
outcome is a non-mismatch failure the whole budget of `mr` attempts was
used (all other failure classes are retried up to the budget). -/
theorem mismatch_short_circuit_c3 (cfg : Config) (item : Item)
    (envA : Nat → ItemEnv) (delay : Int) (mr : Nat)
    (s : Bool) (m : String) (a : Nat)
    (h : (attemptLoop cfg item envA delay mr 1 "" mr).2 = .ok (s, m, a)) :
    a ≤ mr ∧
    (∀ j, 1 ≤ j → j < a →
      ∃ mj, (process_single_item cfg item (envA j)).2 = .ok (false, mj) ∧
        containsMismatch mj = false) ∧
    (s = false → containsMismatch m = false → a = mr) := by
  obtain ⟨h1, h2, h3⟩ :=
    attemptLoop_invariant cfg item envA delay mr mr 1 "" s m a (le_refl 1) h
  exact ⟨by omega, h2, fun hs hm => by have := h3 hs hm; omega⟩

/-- Witness for C3: with a budget of 3 and every attempt ending in the
mismatch reason, the loop stops after attempt 1. -/
theorem mismatch_short_circuit_c3_witness :
    (attemptLoop [] itemW (fun _ => mmEnv) 3 3 1 "" 3).2
        = .ok (false, mismatchReason, 1) ∧ 1 ≤ 3 :=
  ⟨by decide,
   (mismatch_short_circuit_c3 [] itemW (fun _ => mmEnv) 3 3 false
      mismatchReason 1 (by decide)).1⟩

/-! ## C4: records with missing required fields are skipped -/

/-- C4.  A record with an empty store identifier, business registration
number or order number is classified as skipped: the skip counter is
incremented by exactly one, the success and fail counters are untouched,
a warning log names exactly the missing fields, and the submission
protocol is never invoked for the record. -/
theorem skip_eligibility_c4 (env : RunEnv) (cfg : Config) (delay : Int)
    (mr n : Nat) (item : Item) (i : Nat) (st : St)
    (h : missingFields item ≠ []) :
    (recordStep env cfg delay mr n item i st).2.1.skip = st.skip + 1 ∧
    (recordStep env cfg delay mr n item i st).2.1.success = st.success ∧
    (recordStep env cfg delay mr n item i st).2.1.fail = st.fail ∧
    Event.log (skipMsg (missingFields item)) "warn"
      ∈ (recordStep env cfg delay mr n item i st).1 ∧
    ((recordStep env cfg delay mr n item i st).1).countP
      Event.isAttemptStartEv = 0 := by
  have hne : ¬ ((missingFields item).isEmpty = true) := by
    simp [List.isEmpty_iff, h]
  unfold recordStep
  simp only [emitLog]
  rw [if_neg hne]
  rcases hw : env.writeRes i with e | u <;>
    simp [Event.isAttemptStartEv, List.countP_cons]

/-- Witness for C4 at a concrete record with an empty order number. -/
theorem skip_eligibility_c4_witness :
    missingFields itemNoOrder = ["주문번호"] ∧
    (recordStep (envOf [itemNoOrder] []) [] 3 3 1 itemNoOrder 0 st0).2.1.skip
      = st0.skip + 1 := by
  refine ⟨by decide, ?_⟩
  exact (skip_eligibility_c4 (envOf [itemNoOrder] []) [] 3 3 1 itemNoOrder 0 st0
    (by decide)).1

/-! ## C5: bounded log buffer -/

/-- C5.  Starting from the empty buffer, any sequence of `add_log`
appends leaves at most 200 entries, and the buffer is exactly the
most recent (at most) 200 entries in append order — the oldest entries
are the ones dropped. -/
theorem log_buffer_bounded_fifo_c5 (entries : List LogEntry) :
    (entries.foldl add_log []).length ≤ 200 ∧
    entries.foldl add_log [] = entries.drop (entries.length - 200) := by
  have h := foldl_add_log entries [] (by simp)
  simp only [List.nil_append, List.length_nil, Nat.zero_add] at h
  refine ⟨?_, h⟩
  rw [h, List.length_drop]
  omega

/-! ## C6: start request while running -/

/-- C6.  A start request while a run is active is rejected with
HTTP 409, the run state is returned untouched, and no task is created;
when no run is active the handler schedules the run as a background task
and immediately replies with success, likewise without mutating the
state. -/
theorem start_conflict_c6 (req : RunRequest) (st : St) :
    (st.is_running = true →
      start_automation req st = (st, .error 409, none)) ∧
    (st.is_running = false →
      start_automation req st = (st, .ok "자동화가 시작되었습니다", some req)) := by
  constructor <;> intro h <;> simp [start_automation, h]

/-- Witness for C6 at concrete states: a busy state is rejected without
mutation, an idle one accepts. -/
theorem start_conflict_c6_witness :
    start_automation {} ⟨true, 0, 0, 0, 0, 0, [], false⟩
        = (⟨true, 0, 0, 0, 0, 0, [], false⟩, .error 409, none) ∧
    start_automation {} ⟨false, 0, 0, 0, 0, 0, [], false⟩
        = (⟨false, 0, 0, 0, 0, 0, [], false⟩, .ok "자동화가 시작되었습니다", some {}) :=
  ⟨(start_conflict_c6 {} ⟨true, 0, 0, 0, 0, 0, [], false⟩).1 rfl,
   (start_conflict_c6 {} ⟨false, 0, 0, 0, 0, 0, [], false⟩).2 rfl⟩

/-! ## C8: exactly one terminal classification per processed record -/

/-- C8.  Each record-loop iteration that completes without an escaping
exception increments exactly one of the success/fail/skip counters by
exactly one; consequently a loop run that ends without a fatal abort
leaves `success + fail + skip` equal to its starting value plus the
number of records processed (one `progress` broadcast is emitted per
record the loop starts). -/
theorem tally_conservation_c8 (env : RunEnv) (cfg : Config) (delay : Int)
    (mr n : Nat) (item : Item) (i : Nat) (st : St)
    (items : List Item) (j : Nat) (st' : St) :
    ((recordStep env cfg delay mr n item i st).2.2 = none →
      bumpOneOf st (recordStep env cfg delay mr n item i st).2.1) ∧
    ((runLoop env cfg delay mr n items j st').2.2 = none →
      (runLoop env cfg delay mr n items j st').2.1.success
        + (runLoop env cfg delay mr n items j st').2.1.fail
        + (runLoop env cfg delay mr n items j st').2.1.skip
      = st'.success + st'.fail + st'.skip
        + ((runLoop env cfg delay mr n items j st').1).countP
            Event.isProgressEv) :=
  ⟨recordStep_bump env cfg delay mr n item i st,
   runLoop_tally env cfg delay mr n items j st'⟩

/-- Witness for C8: one successful record bumps exactly one counter, and
a one-record loop adds exactly one progress event's worth to the
tallies. -/
theorem tally_conservation_c8_witness :
    bumpOneOf st0 (recordStep (envOf [itemW] []) [] 3 3 1 itemW 0 st0).2.1 ∧
    (runLoop (envOf [itemW] []) [] 3 3 1 [itemW] 0 st0).2.1.success
      + (runLoop (envOf [itemW] []) [] 3 3 1 [itemW] 0 st0).2.1.fail
      + (runLoop (envOf [itemW] []) [] 3 3 1 [itemW] 0 st0).2.1.skip
    = st0.success + st0.fail + st0.skip
      + ((runLoop (envOf [itemW] []) [] 3 3 1 [itemW] 0 st0).1).countP
          Event.isProgressEv :=
  ⟨(tally_conservation_c8 (envOf [itemW] []) [] 3 3 1 itemW 0 st0
      [itemW] 0 st0).1 (by decide),
   (tally_conservation_c8 (envOf [itemW] []) [] 3 3 1 itemW 0 st0
      [itemW] 0 st0).2 (by decide)⟩

/-! ## C2: post-record write-back and its failure handling -/

/-- Counterexample for C2 as stated.  Two records are loaded; the first
is skip-classified and its result write raises.  The claim says the
failure is logged as a warning and the run continues with the next
record; instead the exception escapes the loop (the skip-path write is
unprotected), the run aborts through the fatal-fault path (only one
`progress` event, the second record never starts), and no write-failure
warning is logged. -/
theorem writeback_skip_aborts_c2_cx :
    ((run_automation envC2x 1 0 st0).1).countP Event.isProgressEv = 1 ∧
    (run_automation envC2x 1 0 st0).2.skip = 1 ∧
    (run_automation envC2x 1 0 st0).2.success = 0 ∧
    (run_automation envC2x 1 0 st0).2.fail = 0 ∧
    Event.log (fatalMsg (.err "boom")) "error"
      ∈ (run_automation envC2x 1 0 st0).1 ∧
    Event.log (writeFailMsg (.err "boom")) "warn"
      ∉ (run_automation envC2x 1 0 st0).1 := by
  decide

/-- C2 (amended).  After a record whose outcome is success or exhaustion
the result write-back is performed — a non-raising write emits the sheet
write of the result message for the record's row and the iteration
completes — and a raising write is instead logged as a warning while the
iteration still completes normally (the run continues with the next
record).  After a skip-classified record the write-back is also
attempted — a non-raising write records the skip message and the
iteration completes — but it is unprotected: a raising write escapes the
iteration and aborts the loop (handled by the run's fatal-fault path). -/
theorem writeback_amended_c2 (env : RunEnv) (cfg : Config) (delay : Int)
    (mr n : Nat) (item : Item) (i : Nat) (st : St) :
    (∀ (s : Bool) (m : String) (a : Nat) (e : PyExn),
      missingFields item = [] →
      (attemptLoop cfg item (env.attemptEnv i) delay mr 1 "" mr).2
        = .ok (s, m, a) →
      env.writeRes i = .error e →
      (recordStep env cfg delay mr n item i st).2.2 = none ∧
      Event.log (writeFailMsg e) "warn"
        ∈ (recordStep env cfg delay mr n item i st).1) ∧
    (∀ (s : Bool) (m : String) (a : Nat) (u : Unit),
      missingFields item = [] →
      (attemptLoop cfg item (env.attemptEnv i) delay mr 1 "" mr).2
        = .ok (s, m, a) →
      env.writeRes i = .ok u →
      (recordStep env cfg delay mr n item i st).2.2 = none ∧
      Event.sheetWrite item.row m
        ∈ (recordStep env cfg delay mr n item i st).1) ∧
    (∀ e : PyExn, missingFields item ≠ [] →
      env.writeRes i = .error e →
      (recordStep env cfg delay mr n item i st).2.2 = some e) ∧
    (∀ u : Unit, missingFields item ≠ [] →
      env.writeRes i = .ok u →
      (recordStep env cfg delay mr n item i st).2.2 = none ∧
      Event.sheetWrite item.row (skipMsg (missingFields item))
        ∈ (recordStep env cfg delay mr n item i st).1) := by
  refine ⟨?_, ?_, ?_, ?_⟩
  · intro s m a e hmiss hal hw
    have hemp : (missingFields item).isEmpty = true := by simp [hmiss]
    unfold recordStep
    simp only [emitLog]
    rw [if_pos hemp]
    simp only [hal, hw]
    constructor
    · trivial
    · simp [List.mem_append]
  · intro s m a u hmiss hal hw
    have hemp : (missingFields item).isEmpty = true := by simp [hmiss]
    unfold recordStep
    simp only [emitLog]
    rw [if_pos hemp]
    simp only [hal, hw]
    constructor
    · trivial
    · simp [List.mem_append]
  · intro e hmiss hw
    have hemp : ¬ ((missingFields item).isEmpty = true) := by
      simp [List.isEmpty_iff, hmiss]
    unfold recordStep
    simp only [emitLog]
    rw [if_neg hemp]
    simp only [hw]
  · intro u hmiss hw
    have hemp : ¬ ((missingFields item).isEmpty = true) := by
      simp [List.isEmpty_iff, hmiss]
    unfold recordStep
    simp only [emitLog]
    rw [if_neg hemp]
    simp only [hw]
    constructor
    · trivial
    · simp [List.mem_append]

/-- Witness for the amended C2: a successful record with a non-raising
write emits the sheet write and completes; with a raising write it logs
the warning and still completes; a skipped record's non-raising write
records the skip message, while a raising one aborts the iteration with
that exception. -/
theorem writeback_amended_c2_witness :
    ((recordStep envWfail [] 3 3 1 itemW 0 st0).2.2 = none ∧
      Event.log (writeFailMsg (.err "boom")) "warn"
        ∈ (recordStep envWfail [] 3 3 1 itemW 0 st0).1) ∧
    ((recordStep (envOf [itemW] []) [] 3 3 1 itemW 0 st0).2.2 = none ∧
      Event.sheetWrite itemW.row "✅ 접수 완료"
        ∈ (recordStep (envOf [itemW] []) [] 3 3 1 itemW 0 st0).1) ∧
    (recordStep envWfail [] 3 3 1 itemNoBiz 0 st0).2.2 = some (.err "boom") ∧
    ((recordStep (envOf [itemNoBiz] []) [] 3 3 1 itemNoBiz 0 st0).2.2
        = none ∧
      Event.sheetWrite itemNoBiz.row (skipMsg (missingFields itemNoBiz))
        ∈ (recordStep (envOf [itemNoBiz] []) [] 3 3 1 itemNoBiz 0 st0).1) :=
  ⟨(writeback_amended_c2 envWfail [] 3 3 1 itemW 0 st0).1 true "✅ 접수 완료" 1
      (.err "boom") (by decide) (by decide) rfl,
   (writeback_amended_c2 (envOf [itemW] []) [] 3 3 1 itemW 0 st0).2.1 true
      "✅ 접수 완료" 1 () (by decide) (by decide) rfl,
   (writeback_amended_c2 envWfail [] 3 3 1 itemNoBiz 0 st0).2.2.1
      (.err "boom") (by decide) rfl,
   (writeback_amended_c2 (envOf [itemNoBiz] []) [] 3 3 1 itemNoBiz 0 st0).2.2.2
      () (by decide) rfl⟩

/-! ## C9: pacing sleep between records -/

/-- Counterexample for C9 as stated.  Two records, the first skipped (its
order data incomplete), no stop requested: the claim says a pacing sleep
of `delay + random(0, 2)` follows every non-final record including
skipped ones, yet the run performs no pacing sleep at all — the skip path
`continue`s past the pacing block — while both records are processed. -/
theorem pacing_skip_c9_cx :
    ((run_automation envC9x 1 0 st0).1).countP Event.isPacingEv = 0 ∧
    (run_automation envC9x 1 0 st0).2.skip = 1 ∧
    (run_automation envC9x 1 0 st0).2.success = 1 ∧
    ((run_automation envC9x 1 0 st0).1).countP Event.isProgressEv = 2 := by
  decide

/-- C9 (amended).  The pacing sleep of `delay + jitter` seconds happens
exactly after records whose outcome is success or exhaustion that are not
the last record and with no stop requested; it never happens after a
skip-classified record (the skip path rejoins the loop directly), nor
after the last record, nor when a stop has been requested. -/
theorem pacing_amended_c9 (env : RunEnv) (cfg : Config) (delay : Int)
    (mr n : Nat) (item : Item) (i : Nat) (st : St) :
    (missingFields item ≠ [] →
      ((recordStep env cfg delay mr n item i st).1).countP
        Event.isPacingEv = 0) ∧
    ((n ≤ i + 1 ∨ env.stopAfter i = true) →
      ((recordStep env cfg delay mr n item i st).1).countP
        Event.isPacingEv = 0) ∧
    (∀ (s : Bool) (m : String) (a : Nat),
      missingFields item = [] →
      (attemptLoop cfg item (env.attemptEnv i) delay mr 1 "" mr).2
        = .ok (s, m, a) →
      i + 1 < n → env.stopAfter i = false →
      Event.pacingSleep ((delay : Rat) + env.jitter i)
          ∈ (recordStep env cfg delay mr n item i st).1 ∧
      ((recordStep env cfg delay mr n item i st).1).countP
        Event.isPacingEv = 1) := by
  have hal := attemptLoop_countP cfg item (env.attemptEnv i) delay mr mr 1 ""
    Event.isPacingEv (fun ev h => (stepEv_classify ev h).2.2)
  refine ⟨?_, ?_, ?_⟩
  · intro hmiss
    have hemp : ¬ ((missingFields item).isEmpty = true) := by
      simp [List.isEmpty_iff, hmiss]
    unfold recordStep
    simp only [emitLog]
    rw [if_neg hemp]
    split <;> simp [List.countP_cons, Event.isPacingEv]
  · intro hcond
    have hnc : ¬ (i + 1 < n ∧ ¬ (env.stopAfter i = true)) := by
      rcases hcond with h | h
      · intro hx; omega
      · intro hx; exact hx.2 h
    unfold recordStep
    simp only [emitLog, if_neg hnc]
    repeat' split
    all_goals
      simp_all [List.countP_append, List.countP_cons, Event.isPacingEv]
  · intro s m a hmiss hal2 hin hstop
    have hemp : (missingFields item).isEmpty = true := by simp [hmiss]
    have hc : i + 1 < n ∧ ¬ (env.stopAfter i = true) := ⟨hin, by simp [hstop]⟩
    unfold recordStep
    simp only [emitLog]
    rw [if_pos hemp]
    simp only [hal2, if_pos hc]
    constructor
    · simp [List.mem_append]
    · rcases hwr : env.writeRes i with e2 | u <;>
        simp only [hwr] <;> split <;>
        · simp only [List.countP_append, List.countP_cons, List.countP_nil]
          rw [hal]
          simp [Event.isPacingEv]

/-- Witness for the amended C9 at concrete inputs: a skipped record paces
never, a last record paces never, and a successful non-final record with
no stop paces exactly once. -/
theorem pacing_amended_c9_witness :
    ((recordStep (envOf [itemNoBiz, itemW2] []) [] 3 3 2 itemNoBiz 0 st0).1).countP
        Event.isPacingEv = 0 ∧
    ((recordStep (envOf [itemW, itemW2] []) [] 3 3 2 itemW2 1 st0).1).countP
        Event.isPacingEv = 0 ∧
    ((recordStep (envOf [itemW, itemW2] []) [] 3 3 2 itemW 0 st0).1).countP
        Event.isPacingEv = 1 :=
  ⟨(pacing_amended_c9 (envOf [itemNoBiz, itemW2] []) [] 3 3 2 itemNoBiz 0 st0).1
      (by decide),
   (pacing_amended_c9 (envOf [itemW, itemW2] []) [] 3 3 2 itemW2 1 st0).2.1
      (Or.inl (by omega)),
   ((pacing_amended_c9 (envOf [itemW, itemW2] []) [] 3 3 2 itemW 0 st0).2.2
      true "✅ 접수 완료" 1 (by decide) (by decide) (by omega) rfl).2⟩

/-- The default row range (`start_row = 1`, `end_row = 0`) slices to the
whole record list. -/
lemma pySlice_all {α : Type} (l : List α) :
    pySlice l 0 (l.length : Int) = l := by
  have h0 : ¬ ((l.length : Int) < 0) := by omega
  simp [pySlice, pySliceIdx, h0, List.take_length]

/-- `pySlice_all` in the shape produced for a non-empty record list. -/
lemma pySlice_cons_all {α : Type} (a : α) (l : List α) :
    pySlice (a :: l) 0 ((l.length : Int) + 1) = a :: l := by
  have h := pySlice_all (a :: l)
  simpa using h

/-- With a malformed per-action timeout every started attempt raises, so
a retry loop with any budget left raises on its first attempt. -/
lemma attemptLoop_timeout (cfg : Config) (item : Item)
    (envA : Nat → ItemEnv) (delay : Int) (mr attempt : Nat) (prev : String)
    (fuel : Nat)
    (htmo : pyInt (configGet cfg "요소 탐지 타임아웃(초)" "10") = none)
    (hf : 1 ≤ fuel) :
    (attemptLoop cfg item envA delay mr attempt prev fuel).2
      = .error (.valueError
          (intErrMsg (configGet cfg "요소 탐지 타임아웃(초)" "10"))) := by
  cases fuel with
  | zero => omega
  | succ f => simp [attemptLoop, process_single_item, htmo]

/-- With a malformed per-action timeout, an eligible record whose retry
budget is at least one makes the loop iteration abort with the
`ValueError`. -/
lemma recordStep_timeout_some (env : RunEnv) (cfg : Config) (delay : Int)
    (mr n : Nat) (item : Item) (i : Nat) (st : St)
    (hmiss : missingFields item = [])
    (htmo : pyInt (configGet cfg "요소 탐지 타임아웃(초)" "10") = none)
    (hmr : 1 ≤ mr) :
    (recordStep env cfg delay mr n item i st).2.2
      = some (.valueError
          (intErrMsg (configGet cfg "요소 탐지 타임아웃(초)" "10"))) := by
  have hal := attemptLoop_timeout cfg item (env.attemptEnv i) delay mr 1 "" mr
    htmo hmr
  have hemp : (missingFields item).isEmpty = true := by simp [hmiss]
  unfold recordStep
  simp only [emitLog]
  rw [if_pos hemp]
  simp only [hal]

/-- The timeout-aborted iteration classifies nothing: the success counter
is unchanged. -/
lemma recordStep_timeout_success (env : RunEnv) (cfg : Config)
    (delay : Int) (mr n : Nat) (item : Item) (i : Nat) (st : St)
    (hmiss : missingFields item = [])
    (htmo : pyInt (configGet cfg "요소 탐지 타임아웃(초)" "10") = none)
    (hmr : 1 ≤ mr) :
    (recordStep env cfg delay mr n item i st).2.1.success = st.success := by
  have hal := attemptLoop_timeout cfg item (env.attemptEnv i) delay mr 1 "" mr
    htmo hmr
  have hemp : (missingFields item).isEmpty = true := by simp [hmiss]
  unfold recordStep
  simp only [emitLog]
  rw [if_pos hemp]
  simp only [hal]
  simp

/-- The timeout-aborted iteration classifies nothing: the fail counter is
unchanged. -/
lemma recordStep_timeout_fail (env : RunEnv) (cfg : Config)
    (delay : Int) (mr n : Nat) (item : Item) (i : Nat) (st : St)
    (hmiss : missingFields item = [])
    (htmo : pyInt (configGet cfg "요소 탐지 타임아웃(초)" "10") = none)
    (hmr : 1 ≤ mr) :
    (recordStep env cfg delay mr n item i st).2.1.fail = st.fail := by
  have hal := attemptLoop_timeout cfg item (env.attemptEnv i) delay mr 1 "" mr
    htmo hmr
  have hemp : (missingFields item).isEmpty = true := by simp [hmiss]
  unfold recordStep
  simp only [emitLog]
  rw [if_pos hemp]
  simp only [hal]
  simp

/-- The timeout-aborted iteration classifies nothing: the skip counter is
unchanged. -/
lemma recordStep_timeout_skip (env : RunEnv) (cfg : Config)
    (delay : Int) (mr n : Nat) (item : Item) (i : Nat) (st : St)
    (hmiss : missingFields item = [])
    (htmo : pyInt (configGet cfg "요소 탐지 타임아웃(초)" "10") = none)
    (hmr : 1 ≤ mr) :
    (recordStep env cfg delay mr n item i st).2.1.skip = st.skip := by
  have hal := attemptLoop_timeout cfg item (env.attemptEnv i) delay mr 1 "" mr
    htmo hmr
  have hemp : (missingFields item).isEmpty = true := by simp [hmiss]
  unfold recordStep
  simp only [emitLog]
  rw [if_pos hemp]
  simp only [hal]
  simp

/-! ## C7: configuration defaults and malformed values -/

/-- Counterexample for C7 as stated.  The claim says a malformed numeric
setting falls back silently to its default and reading configuration
never raises or aborts the run.  With `"건당 대기시간(초)" ↦ "abc"` the
`int()` parse yields no value (CPython raises `ValueError`), the run logs
the fatal-fault line for exactly that exception, and aborts before
processing its one well-formed record: no progress event, all counters
zero. -/
theorem config_malformed_raises_c7_cx :
    pyInt (configGet [("건당 대기시간(초)", "abc")] "건당 대기시간(초)" "3")
      = none ∧
    Event.log (fatalMsg (.valueError (intErrMsg "abc"))) "error"
      ∈ (run_automation envC7x 1 0 st0).1 ∧
    ((run_automation envC7x 1 0 st0).1).countP Event.isProgressEv = 0 ∧
    (run_automation envC7x 1 0 st0).2.success
      + (run_automation envC7x 1 0 st0).2.fail
      + (run_automation envC7x 1 0 st0).2.skip = 0 := by
  decide

/-- C7 (amended).  A configuration setting that is absent falls back
silently to its documented default (for every key, hence for all eight
settings).  A malformed value for a numeric setting does not fall back,
it raises `ValueError`: the per-action timeout makes
`process_single_item` raise before its protocol body runs, and the run
aborts through the fatal-fault path for all three numeric settings — the
per-record delay and the retry budget at run setup, the timeout on the
first started attempt — with the fatal log line emitted, no record
classified, and the guaranteed cleanup still clearing the running
flag. -/
theorem config_defaults_amended_c7 :
    (∀ (c : Config) (k d : String), lookupLast c k = none →
      configGet c k d = d) ∧
    (∀ (cfg : Config) (item : Item) (ienv : ItemEnv),
      pyInt (configGet cfg "요소 탐지 타임아웃(초)" "10") = none →
      process_single_item cfg item ienv
        = ([], .error (.valueError
            (intErrMsg (configGet cfg "요소 탐지 타임아웃(초)" "10"))))) ∧
    (∀ (env : RunEnv) (sr er : Int) (stp : St) (items : List Item)
        (cfg : Config),
      env.load = .ok (items, cfg) → items ≠ [] →
      pyInt (configGet cfg "건당 대기시간(초)" "3") = none →
      Event.log (fatalMsg (.valueError
          (intErrMsg (configGet cfg "건당 대기시간(초)" "3")))) "error"
        ∈ (run_automation env sr er stp).1 ∧
      ((run_automation env sr er stp).1).countP Event.isProgressEv = 0 ∧
      (run_automation env sr er stp).2.is_running = false) ∧
    (∀ (env : RunEnv) (sr er : Int) (stp : St) (items : List Item)
        (cfg : Config) (d : Int),
      env.load = .ok (items, cfg) → items ≠ [] →
      pyInt (configGet cfg "건당 대기시간(초)" "3") = some d →
      pyInt (configGet cfg "최대 재시도 횟수" "3") = none →
      Event.log (fatalMsg (.valueError
          (intErrMsg (configGet cfg "최대 재시도 횟수" "3")))) "error"
        ∈ (run_automation env sr er stp).1 ∧
      ((run_automation env sr er stp).1).countP Event.isProgressEv = 0 ∧
      (run_automation env sr er stp).2.is_running = false) ∧
    (∀ (env : RunEnv) (stp : St) (item : Item) (rest : List Item)
        (cfg : Config) (d r : Int),
      env.load = .ok (item :: rest, cfg) →
      missingFields item = [] →
      env.stopBefore 0 = false →
      env.browserExn = none →
      pyInt (configGet cfg "건당 대기시간(초)" "3") = some d →
      pyInt (configGet cfg "최대 재시도 횟수" "3") = some r →
      1 ≤ r.toNat →
      pyInt (configGet cfg "요소 탐지 타임아웃(초)" "10") = none →
      Event.log (fatalMsg (.valueError
          (intErrMsg (configGet cfg "요소 탐지 타임아웃(초)" "10")))) "error"
        ∈ (run_automation env 1 0 stp).1 ∧
      (run_automation env 1 0 stp).2.success
        + (run_automation env 1 0 stp).2.fail
        + (run_automation env 1 0 stp).2.skip = 0 ∧
      (run_automation env 1 0 stp).2.is_running = false) := by
  refine ⟨?_, ?_, ?_, ?_, ?_⟩
  · intro c k d h
    simp [configGet, h]
  · intro cfg item ienv h
    simp [process_single_item, h]
  · intro env sr er stp items cfg hload hne hbad
    have hne' : ¬ (items.isEmpty = true) := by simp [List.isEmpty_iff, hne]
    refine ⟨?_, ?_, ?_⟩ <;>
      simp [run_automation, runTry, emitLog, hload, hne', hbad,
        List.countP_append, List.countP_cons, Event.isProgressEv,
        List.mem_append]
  · intro env sr er stp items cfg d hload hne hd hbad
    have hne' : ¬ (items.isEmpty = true) := by simp [List.isEmpty_iff, hne]
    refine ⟨?_, ?_, ?_⟩ <;>
      simp [run_automation, runTry, emitLog, hload, hne', hd, hbad,
        List.countP_append, List.countP_cons, Event.isProgressEv,
        List.mem_append]
  · intro env stp item rest cfg d r hload hmiss hsb hbr hd hr hr1 htmo
    refine ⟨?_, ?_, ?_⟩ <;>
      simp [run_automation, runTry, runLoop, emitLog, hload, hsb, hbr, hd,
        hr, hmiss, htmo, hr1, pySlice_all, pySlice_cons_all, resetState,
        recordStep_timeout_some, recordStep_timeout_success,
        recordStep_timeout_fail, recordStep_timeout_skip, List.mem_append]

/-- Witness for the amended C7: an absent key yields its default; the
malformed timeout makes the protocol call raise; and the three concrete
malformed-setting environments (delay, retry budget, timeout) each take
the run's fatal path. -/
theorem config_defaults_amended_c7_witness :
    configGet [] "건당 대기시간(초)" "3" = "3" ∧
    process_single_item [("요소 탐지 타임아웃(초)", "zzz")] itemW {}
      = ([], .error (.valueError (intErrMsg (configGet
          [("요소 탐지 타임아웃(초)", "zzz")] "요소 탐지 타임아웃(초)" "10")))) ∧
    Event.log (fatalMsg (.valueError (intErrMsg
        (configGet [("건당 대기시간(초)", "abc")] "건당 대기시간(초)" "3"))))
      "error" ∈ (run_automation envC7x 1 0 st0).1 ∧
    Event.log (fatalMsg (.valueError (intErrMsg
        (configGet [("최대 재시도 횟수", "xyz")] "최대 재시도 횟수" "3"))))
      "error" ∈ (run_automation envC7r 1 0 st0).1 ∧
    Event.log (fatalMsg (.valueError (intErrMsg
        (configGet [("요소 탐지 타임아웃(초)", "zzz")] "요소 탐지 타임아웃(초)" "10"))))
      "error" ∈ (run_automation envC7t 1 0 st0).1 :=
  ⟨config_defaults_amended_c7.1 [] "건당 대기시간(초)" "3" (by decide),
   config_defaults_amended_c7.2.1 [("요소 탐지 타임아웃(초)", "zzz")] itemW {}
      (by decide),
   (config_defaults_amended_c7.2.2.1 envC7x 1 0 st0 [itemW]
      [("건당 대기시간(초)", "abc")] rfl (by decide) (by decide)).1,
   (config_defaults_amended_c7.2.2.2.1 envC7r 1 0 st0 [itemW]
      [("최대 재시도 횟수", "xyz")] 3 rfl (by decide) (by decide) (by decide)).1,
   (config_defaults_amended_c7.2.2.2.2 envC7t st0 itemW []
      [("요소 탐지 타임아웃(초)", "zzz")] 3 3 rfl (by decide) rfl rfl
      (by decide) (by decide) (by decide) (by decide)).1⟩

/-! ## C10: invariants of the sheet reader -/

/-- The rows of the records built by the reader loop are consecutive,
starting at the loop's starting row number. -/
lemma sheetItems_rows : ∀ (rows : List (List String)) (i : Nat),
    (sheetItems rows i).map Item.row
      = List.range' i (sheetItems rows i).length := by
  intro rows
  induction rows with
  | nil => intro i; simp [sheetItems]
  | cons row rest ih =>
    intro i
    simp only [sheetItems]
    by_cases hc : row.getD 2 "" = ""
    · rw [if_pos hc]; simp
    · rw [if_neg hc]
      simp only [List.map_cons, List.length_cons, List.range'_succ]
      rw [ih (i + 1)]
      simp [mkSheetItem]

/-- Every record built by the reader loop has a raw store-ID cell that is
non-empty; if no cell is whitespace-only, the stripped store ID is also
non-empty. -/
lemma sheetItems_store : ∀ (rows : List (List String)) (i : Nat),
    (∀ row ∈ rows, (pyStrip (row.getD 2 "") = "" → row.getD 2 "" = "")) →
    ∀ it ∈ sheetItems rows i, it.store_id ≠ "" := by
  intro rows
  induction rows with
  | nil => intro i _ it hit; simp [sheetItems] at hit
  | cons row rest ih =>
    intro i h it hit
    simp only [sheetItems] at hit
    by_cases hc : row.getD 2 "" = ""
    · rw [if_pos hc] at hit; simp at hit
    · rw [if_neg hc] at hit
      rcases List.mem_cons.1 hit with hhd | htl
      · subst hhd
        intro hstrip
        exact hc (h row (List.mem_cons_self row rest) hstrip)
      · exact ih (i + 1) (fun r hr => h r (List.mem_cons_of_mem row hr)) it htl

/-- The skip message can only name the store identifier when the stripped
store ID is empty. -/
lemma store_not_in_missing (it : Item) (h : it.store_id ≠ "") :
    "스토어ID" ∉ missingFields it := by
  intro hmem
  simp only [missingFields, List.mem_append] at hmem
  rcases hmem with (h1 | h1) | h1
  · rw [if_neg h] at h1; simp at h1
  · split at h1
    · exact absurd h1 (by decide)
    · simp at h1
  · split at h1
    · exact absurd h1 (by decide)
    · simp at h1

/-- Counterexample for C10 as stated.  A row whose store-ID cell holds a
single space passes the reader's stop test (`if not row[2]`, which checks
the raw cell) but strips to the empty string, so the reader returns a
record with an empty store identifier, and the eligibility check's
missing-field list names exactly the store identifier. -/
theorem reader_whitespace_c10_cx :
    (get_sheet_data matC10w []).1.map missingFields = [["스토어ID"]] ∧
    (get_sheet_data matC10w []).1.map Item.store_id = [""] := by
  decide

/-- C10 (amended).  Records returned by the reader carry consecutive
1-based row addresses starting at 4, and every returned record comes from
a row whose raw store-ID cell is non-empty; provided no store-ID cell is
whitespace-only (raw non-empty but stripping to empty), the stored store
identifier is non-empty and the skip message can never name the store
identifier — only the business registration number or order number. -/
theorem reader_rows_c10 (records configRows : List (List String))
    (h : ∀ row ∈ records,
      (pyStrip (row.getD 2 "") = "" → row.getD 2 "" = "")) :
    ((get_sheet_data records configRows).1.map Item.row
      = List.range' 4 (get_sheet_data records configRows).1.length) ∧
    (∀ it ∈ (get_sheet_data records configRows).1,
      it.store_id ≠ "" ∧ "스토어ID" ∉ missingFields it) := by
  unfold get_sheet_data
  by_cases hlen : records.length < 4
  · rw [if_pos hlen]; simp
  · rw [if_neg hlen]
    have hdrop : ∀ row ∈ records.drop 3,
        (pyStrip (row.getD 2 "") = "" → row.getD 2 "" = "") :=
      fun row hr => h row (List.mem_of_mem_drop hr)
    refine ⟨sheetItems_rows (records.drop 3) 4, fun it hit => ?_⟩
    have hs := sheetItems_store (records.drop 3) 4 hdrop it hit
    exact ⟨hs, store_not_in_missing it hs⟩

/-- Witness for the amended C10 on a concrete two-record matrix. -/
theorem reader_rows_c10_witness :
    (get_sheet_data matC10 []).1.map Item.row
      = List.range' 4 (get_sheet_data matC10 []).1.length ∧
    (get_sheet_data matC10 []).1.map Item.store_id = ["S1", "S2"] :=
  ⟨(reader_rows_c10 matC10 [] (by decide)).1, by decide⟩

end Coupang
